import Mathlib

/-!
Shallow embedding of `backend/api/v1/devices.py`.

The State Store is modelled as an association list of string keys to string
values.  Both backends of the source (`redis` with `decode_responses=True`
and the in-memory `device_states` dict) present the same interface used by
the handlers: `get_device_status` returns the stored string or the default
`"off"` when the key is absent (`r.get(key) or "off"` resp.
`device_states.get(key, "off")`), and `set_device_status` overwrites
unconditionally.

The single global connection `unity_ws` is modelled as `Option Nat`: channel
handles are identified by a number so that superseded channels can be told
apart from the current one.  Whether a `send_text` on a given handle succeeds
is supplied as a function `sendOk : Nat → Bool`; a failing send raises in
Python, which the embedding renders as `Except.error` carrying the state the
process is left in when the exception escapes the endpoint.

`VolumeCommand.change` is a Python float; the embedding carries it as the
pair of its decimal text (used verbatim in the wire message by
`f"tv:volume:{command.change}"`) and its truncation toward zero
(`int(command.change)`), which is the only arithmetic use the source makes
of it.
-/

/-- Python `str.lower()`.  Every string this system handles is ASCII, where
`Char.toLower` agrees with Python. -/
def pyLower (s : String) : String := ⟨s.data.map Char.toLower⟩

/-- Python `str.split(sep)` for a one-character separator, on a char list:
splits at every occurrence and keeps empty pieces, so
`"tv::on" ↦ ["tv", "", "on"]` and `"" ↦ [""]`. -/
def splitCharList (sep : Char) : List Char → List (List Char)
  | [] => [[]]
  | c :: rest =>
      let r := splitCharList sep rest
      if c = sep then [] :: r
      else
        match r with
        | [] => [[c]]
        | g :: gs => (c :: g) :: gs

/-- Python `data.split(sep)` as a list of strings. -/
def pySplit (s : String) (sep : Char) : List String :=
  (splitCharList sep s.data).map String.mk

/-- The State Store: string keys to string values. -/
abbrev Store := List (String × String)

/-- First binding of `key`, if any (both backends return the stored string). -/
def store_lookup : Store → String → Option String
  | [], _ => none
  | (k, v) :: rest, key => if k = key then some v else store_lookup rest key

/-- `get_device_status` from the source: stored value, or `"off"` if absent
(`r.get(key) or "off"` / `device_states.get(key, "off")`). -/
def get_device_status (st : Store) (key : String) : String :=
  (store_lookup st key).getD "off"

/-- `set_device_status` from the source: unconditional overwrite
(`r.set(key, state)` / `device_states[key] = state`). -/
def set_device_status (st : Store) (key : String) (v : String) : Store :=
  match st with
  | [] => [(key, v)]
  | (k, w) :: rest =>
      if k = key then (key, v) :: rest else (k, w) :: set_device_status rest key v

/-- The in-memory `device_states` initial dictionary of the source. -/
def init_store : Store :=
  [("lamp_status", "on"), ("tv_status", "off"), ("radio_status", "off"),
   ("kitchenlight_status", "on"), ("tv_volume", "50"), ("radio_volume", "6")]

/-- Python `int(s)` on the strings that occur here: an optional sign followed
by a nonempty run of decimal digits parses to the signed value; anything else
(e.g. `"off"`, `""`) raises, modelled as `none`. -/
def pyInt (s : String) : Option Int :=
  let core : List Char → Option Nat := fun ds =>
    if ds ≠ [] ∧ ds.all Char.isDigit then
      some (ds.foldl (fun n c => n * 10 + (c.toNat - 48)) 0)
    else none
  match s.toList with
  | '-' :: rest => (core rest).map (fun n => -(n : Int))
  | '+' :: rest => (core rest).map (fun n => (n : Int))
  | cs => (core cs).map (fun n => (n : Int))

/-- Process state: the global `unity_ws` connection slot and the Store. -/
structure Sys where
  unity_ws : Option Nat
  store : Store
deriving DecidableEq, Repr

/-- Result of a toggle endpoint (`/lamp`, `/tv`, `/radio`, `/kitchenlight`):
the `{"error": ...}` dict, the `"already ..."` no-op acknowledgement, or the
`"Command sent"` acknowledgement carrying the wire text. -/
inductive ToggleResp where
  | notConnected : ToggleResp
  | already (state : String) : ToggleResp
  | sent (cmd : String) : ToggleResp
deriving DecidableEq, Repr

/-- Result of a volume endpoint (`/tv/volume`, `/radio/volume`). -/
inductive VolResp where
  | notConnected : VolResp
  | sent (cmd : String) (new_volume : Int) : VolResp
deriving DecidableEq, Repr

/-- The common body of `toggle_lamp`, `toggle_tv`, `toggle_radio`,
`toggle_kitchen_light`, parameterised by the device's wire name and status
key.  Returns the response, the new process state, and the list of wire
messages sent; `Except.error` is an uncaught Python exception (a failing
`send_text`), carrying the state at the moment the exception escapes. -/
def toggle (dev key : String) (sendOk : Nat → Bool) (cmdState : String)
    (s : Sys) : Except Sys (ToggleResp × Sys × List String) :=
  match s.unity_ws with
  | none => .ok (.notConnected, s, [])
  | some ch =>
      let desired_state := pyLower cmdState
      let current_state := get_device_status s.store key
      if current_state = desired_state then
        .ok (.already desired_state, s, [])
      else
        let message := dev ++ ":status:" ++ cmdState
        if sendOk ch then
          .ok (.sent message,
               { s with store := set_device_status s.store key desired_state },
               [message])
        else
          .error s

/-- `toggle_lamp` (POST `/lamp`). -/
def toggle_lamp : (Nat → Bool) → String → Sys →
    Except Sys (ToggleResp × Sys × List String) :=
  toggle "lamp" "lamp_status"

/-- `toggle_tv` (POST `/tv`). -/
def toggle_tv : (Nat → Bool) → String → Sys →
    Except Sys (ToggleResp × Sys × List String) :=
  toggle "tv" "tv_status"

/-- `toggle_radio` (POST `/radio`). -/
def toggle_radio : (Nat → Bool) → String → Sys →
    Except Sys (ToggleResp × Sys × List String) :=
  toggle "radio" "radio_status"

/-- `toggle_kitchen_light` (POST `/kitchenlight`). -/
def toggle_kitchen_light : (Nat → Bool) → String → Sys →
    Except Sys (ToggleResp × Sys × List String) :=
  toggle "kitchenlight" "kitchenlight_status"

/-- The clamp expression of the volume handlers:
`max(0, min(100, current_vol + int(command.change)))`. -/
def clamp_volume (current_vol changeTrunc : Int) : Int :=
  max 0 (min 100 (current_vol + changeTrunc))

/-- The common body of `change_tv_volume` and `change_radio_volume`,
parameterised by device wire name, volume key, and the fallback default used
when the stored value fails to parse (50 for tv, 6 for radio).  `changeStr`
is the decimal text of the float `command.change`; `changeTrunc` is
`int(command.change)`.  The send happens before the store is read, so a
failing send leaves the store untouched. -/
def change_volume (dev key : String) (defaultVol : Int) (sendOk : Nat → Bool)
    (changeStr : String) (changeTrunc : Int) (s : Sys) :
    Except Sys (VolResp × Sys × List String) :=
  match s.unity_ws with
  | none => .ok (.notConnected, s, [])
  | some ch =>
      let message := dev ++ ":volume:" ++ changeStr
      if sendOk ch then
        let current_vol := (pyInt (get_device_status s.store key)).getD defaultVol
        let new_vol := clamp_volume current_vol changeTrunc
        .ok (.sent message new_vol,
             { s with store := set_device_status s.store key (toString new_vol) },
             [message])
      else
        .error s

/-- `change_tv_volume` (POST `/tv/volume`). -/
def change_tv_volume : (Nat → Bool) → String → Int → Sys →
    Except Sys (VolResp × Sys × List String) :=
  change_volume "tv" "tv_volume" 50

/-- `change_radio_volume` (POST `/radio/volume`). -/
def change_radio_volume : (Nat → Bool) → String → Int → Sys →
    Except Sys (VolResp × Sys × List String) :=
  change_volume "radio" "radio_volume" 6

/-- `get_lamp_status` (GET `/lamp/status`): returns `state == "on"` paired
with the store it leaves behind. -/
def get_lamp_status (st : Store) : Bool × Store :=
  (get_device_status st "lamp_status" == "on", st)

/-- `get_tv_status` (GET `/tv/status`). -/
def get_tv_status (st : Store) : Bool × Store :=
  (get_device_status st "tv_status" == "on", st)

/-- `get_radio_status` (GET `/radio/status`). -/
def get_radio_status (st : Store) : Bool × Store :=
  (get_device_status st "radio_status" == "on", st)

/-- `get_kitchen_light_status` (GET `/kitchenlight/status`). -/
def get_kitchen_light_status (st : Store) : Bool × Store :=
  (get_device_status st "kitchenlight_status" == "on", st)

/-- `get_tv_volume` (GET `/tv/volume`): parse the stored value, fall back to
50 on parse failure; returns the value paired with the store it leaves
behind. -/
def get_tv_volume (st : Store) : Int × Store :=
  ((pyInt (get_device_status st "tv_volume")).getD 50, st)

/-- `get_radio_volume` (GET `/radio/volume`): fallback 6. -/
def get_radio_volume (st : Store) : Int × Store :=
  ((pyInt (get_device_status st "radio_volume")).getD 6, st)

/-- One iteration of the WebSocket receive loop on an inbound text message:
`data.split(":")`; if exactly 3 parts, lowercase them and store the third
under `"{device}_{prop}"`; otherwise the message is dropped. -/
def handle_message (data : String) (st : Store) : Store :=
  match pySplit data ':' with
  | [device, prop, value] =>
      set_device_status st (pyLower device ++ "_" ++ pyLower prop) (pyLower value)
  | _ => st

/-- Connection-registry events observable at the `websocket_endpoint`:
a channel's accept (`unity_ws = websocket`) and a channel handler's
`WebSocketDisconnect` branch (`unity_ws = None`). -/
inductive ChanEv where
  | connect (ch : Nat) : ChanEv
  | disconnect (ch : Nat) : ChanEv
deriving DecidableEq, Repr

/-- Effect of one channel event on the global `unity_ws` slot, exactly as in
the source: registration overwrites unconditionally, and the
`except WebSocketDisconnect` branch sets `unity_ws = None` unconditionally —
it does not check that the disconnecting channel is the registered one. -/
def registryStep (_slot : Option Nat) : ChanEv → Option Nat
  | .connect ch => some ch
  | .disconnect _ => none

/-- Fold of `registryStep` over an event sequence. -/
def registryRun (slot : Option Nat) : List ChanEv → Option Nat
  | [] => slot
  | ev :: rest => registryRun (registryStep slot ev) rest

/-! ## Helper lemmas -/

/-- Reading a key straight after writing it returns the written value. -/
theorem get_set_same (st : Store) (key v : String) :
    get_device_status (set_device_status st key v) key = v := by
  induction st with
  | nil => simp [set_device_status, get_device_status, store_lookup]
  | cons hd tl ih =>
      obtain ⟨k, w⟩ := hd
      by_cases h : k = key
      · subst h
        simp [set_device_status, get_device_status, store_lookup]
      · simp only [set_device_status, if_neg h, get_device_status, store_lookup]
        exact ih

/-- The clamp of the volume handlers always lands in `[0, 100]`. -/
theorem clamp_volume_bounds (current_vol changeTrunc : Int) :
    0 ≤ clamp_volume current_vol changeTrunc ∧
    clamp_volume current_vol changeTrunc ≤ 100 :=
  ⟨le_max_left 0 _, max_le (by norm_num) (min_le_left 100 _)⟩

/-! ## Claims -/

/-- Claim C1: with a controller connected (and the send succeeding, as the
source performs the send before touching the store), `change_tv_volume`
and `change_radio_volume` store the string form of
`clamp(current + truncate(delta), 0, 100)` — `current` being the stored
value parsed as an integer with fallback 50 (tv) resp. 6 (radio) — return
that number, and the stored volume lies in `[0, 100]`. -/
theorem adjustVolume_clamps (ch : Nat) (sendOk : Nat → Bool) (st : Store)
    (changeStr : String) (delta : Int) (h : sendOk ch = true) :
    change_tv_volume sendOk changeStr delta ⟨some ch, st⟩ =
      .ok (.sent ("tv:volume:" ++ changeStr)
             (clamp_volume ((pyInt (get_device_status st "tv_volume")).getD 50) delta),
           ⟨some ch, set_device_status st "tv_volume"
              (toString (clamp_volume ((pyInt (get_device_status st "tv_volume")).getD 50) delta))⟩,
           ["tv:volume:" ++ changeStr]) ∧
    0 ≤ clamp_volume ((pyInt (get_device_status st "tv_volume")).getD 50) delta ∧
    clamp_volume ((pyInt (get_device_status st "tv_volume")).getD 50) delta ≤ 100 ∧
    change_radio_volume sendOk changeStr delta ⟨some ch, st⟩ =
      .ok (.sent ("radio:volume:" ++ changeStr)
             (clamp_volume ((pyInt (get_device_status st "radio_volume")).getD 6) delta),
           ⟨some ch, set_device_status st "radio_volume"
              (toString (clamp_volume ((pyInt (get_device_status st "radio_volume")).getD 6) delta))⟩,
           ["radio:volume:" ++ changeStr]) ∧
    0 ≤ clamp_volume ((pyInt (get_device_status st "radio_volume")).getD 6) delta ∧
    clamp_volume ((pyInt (get_device_status st "radio_volume")).getD 6) delta ≤ 100 := by
  refine ⟨?_, (clamp_volume_bounds _ _).1, (clamp_volume_bounds _ _).2,
          ?_, (clamp_volume_bounds _ _).1, (clamp_volume_bounds _ _).2⟩
  · simp [change_tv_volume, change_volume, h]
  · simp [change_radio_volume, change_volume, h]

/-- Witness for C1 at the spec's own example: volume 95, delta +50 clamps to
100; radio (key absent, default 6) goes to 56. -/
theorem adjustVolume_clamps_witness :
    (fun _ : Nat => true) 0 = true ∧
    change_tv_volume (fun _ => true) "50.0" 50 ⟨some 0, [("tv_volume", "95")]⟩ =
      .ok (.sent "tv:volume:50.0" 100, ⟨some 0, [("tv_volume", "100")]⟩,
           ["tv:volume:50.0"]) ∧
    change_radio_volume (fun _ => true) "50.0" 50 ⟨some 0, [("tv_volume", "95")]⟩ =
      .ok (.sent "radio:volume:50.0" 56,
           ⟨some 0, [("tv_volume", "95"), ("radio_volume", "56")]⟩,
           ["radio:volume:50.0"]) := by
  have h := adjustVolume_clamps 0 (fun _ => true) [("tv_volume", "95")] "50.0" 50 rfl
  exact ⟨rfl, h.1, h.2.2.2.1⟩

/-- Claim C2: with no controller connected (`unity_ws = none`), every toggle
and volume endpoint returns the `{"error": ...}` result (not an exception),
leaves the state untouched, and sends nothing on the wire. -/
theorem controllerUnavailable_no_effect (sendOk : Nat → Bool)
    (cmdState changeStr : String) (changeTrunc : Int) (st : Store) :
    toggle_lamp sendOk cmdState ⟨none, st⟩ = .ok (.notConnected, ⟨none, st⟩, []) ∧
    toggle_tv sendOk cmdState ⟨none, st⟩ = .ok (.notConnected, ⟨none, st⟩, []) ∧
    toggle_radio sendOk cmdState ⟨none, st⟩ = .ok (.notConnected, ⟨none, st⟩, []) ∧
    toggle_kitchen_light sendOk cmdState ⟨none, st⟩ =
      .ok (.notConnected, ⟨none, st⟩, []) ∧
    change_tv_volume sendOk changeStr changeTrunc ⟨none, st⟩ =
      .ok (.notConnected, ⟨none, st⟩, []) ∧
    change_radio_volume sendOk changeStr changeTrunc ⟨none, st⟩ =
      .ok (.notConnected, ⟨none, st⟩, []) :=
  ⟨rfl, rfl, rfl, rfl, rfl, rfl⟩

/-- Counterexample to claim C3 as stated: with stored `lamp_status = "ON"`
and request `"on"`, the two are equal case-insensitively, yet the source
compares the raw stored value against the lowercased request, finds them
different, sends a wire message and rewrites the store — not a no-op. -/
theorem toggle_caseInsensitive_counterexample :
    pyLower "ON" = pyLower "on" ∧
    toggle_lamp (fun _ => true) "on" ⟨some 0, [("lamp_status", "ON")]⟩ =
      .ok (.sent "lamp:status:on", ⟨some 0, [("lamp_status", "on")]⟩,
           ["lamp:status:on"]) :=
  ⟨by decide, rfl⟩

/-- Claim C3 as amended: the no-op happens exactly when the stored status
equals the lowercased request (only the request side is case-folded), and
only then: on a non-matching store every successful call returns no
`already` acknowledgement, sends a message, and rewrites the key (a failing
send escapes as an exception instead).  The consequence stands as claimed —
two consecutive identical toggles emit at most one wire message. -/
theorem toggle_noop_amended (dev key : String) (sendOk : Nat → Bool) (ch : Nat)
    (st : Store) (cmdState : String) :
    (get_device_status st key = pyLower cmdState →
      toggle dev key sendOk cmdState ⟨some ch, st⟩ =
        .ok (.already (pyLower cmdState), ⟨some ch, st⟩, [])) ∧
    (∀ r1 s1 msgs1 r2 s2 msgs2,
      toggle dev key sendOk cmdState ⟨some ch, st⟩ = .ok (r1, s1, msgs1) →
      toggle dev key sendOk cmdState s1 = .ok (r2, s2, msgs2) →
      msgs1.length + msgs2.length ≤ 1) ∧
    (get_device_status st key ≠ pyLower cmdState →
      ∀ r s1 msgs1,
        toggle dev key sendOk cmdState ⟨some ch, st⟩ = .ok (r, s1, msgs1) →
        (∀ x, r ≠ ToggleResp.already x) ∧ msgs1 ≠ [] ∧
        get_device_status s1.store key = pyLower cmdState) := by
  refine ⟨?_, ?_, ?_⟩
  · intro h
    simp [toggle, h]
  · intro r1 s1 msgs1 r2 s2 msgs2 h1 h2
    by_cases hcd : get_device_status st key = pyLower cmdState
    · have e1 : toggle dev key sendOk cmdState ⟨some ch, st⟩ =
          .ok (.already (pyLower cmdState), ⟨some ch, st⟩, ([] : List String)) := by
        simp [toggle, hcd]
      rw [e1] at h1
      injection h1 with h1
      injection h1 with hr h1
      injection h1 with hs hm
      subst hs
      subst hm
      rw [e1] at h2
      injection h2 with h2
      injection h2 with hr2 h2
      injection h2 with hs2 hm2
      subst hm2
      simp
    · by_cases hsend : sendOk ch = true
      · have e1 : toggle dev key sendOk cmdState ⟨some ch, st⟩ =
            .ok (.sent (dev ++ ":status:" ++ cmdState),
                 ⟨some ch, set_device_status st key (pyLower cmdState)⟩,
                 [dev ++ ":status:" ++ cmdState]) := by
          simp [toggle, hcd, hsend]
        rw [e1] at h1
        injection h1 with h1
        injection h1 with hr h1
        injection h1 with hs hm
        subst hs
        subst hm
        have hget : get_device_status
            (set_device_status st key (pyLower cmdState)) key = pyLower cmdState :=
          get_set_same st key (pyLower cmdState)
        have e2 : toggle dev key sendOk cmdState
            ⟨some ch, set_device_status st key (pyLower cmdState)⟩ =
            .ok (.already (pyLower cmdState),
                 ⟨some ch, set_device_status st key (pyLower cmdState)⟩,
                 ([] : List String)) := by
          simp [toggle, hget]
        rw [e2] at h2
        injection h2 with h2
        injection h2 with hr2 h2
        injection h2 with hs2 hm2
        subst hm2
        simp
      · have e1 : toggle dev key sendOk cmdState ⟨some ch, st⟩ =
            .error ⟨some ch, st⟩ := by
          simp [toggle, hcd, hsend]
        rw [e1] at h1
        exact Except.noConfusion h1
  · intro hcd r s1 msgs1 h
    by_cases hsend : sendOk ch = true
    · have e1 : toggle dev key sendOk cmdState ⟨some ch, st⟩ =
          .ok (.sent (dev ++ ":status:" ++ cmdState),
               ⟨some ch, set_device_status st key (pyLower cmdState)⟩,
               [dev ++ ":status:" ++ cmdState]) := by
        simp [toggle, hcd, hsend]
      rw [e1] at h
      injection h with h
      injection h with hr h
      injection h with hs hm
      subst hr
      subst hs
      subst hm
      exact ⟨fun x hx => ToggleResp.noConfusion hx, List.cons_ne_nil _ _,
             get_set_same st key (pyLower cmdState)⟩
    · have e1 : toggle dev key sendOk cmdState ⟨some ch, st⟩ =
          .error ⟨some ch, st⟩ := by
        simp [toggle, hcd, hsend]
      rw [e1] at h
      exact Except.noConfusion h

/-- Witness for C3 as amended: a matching store yields the no-op; a changing
toggle followed by its repetition emits one message in total; and a
non-matching store (`"ON"` vs request `"on"`) yields no `already`
acknowledgement, a nonempty message list, and a rewritten key. -/
theorem toggle_noop_amended_witness :
    (get_device_status [("lamp_status", "on")] "lamp_status" = pyLower "On" ∧
     toggle "lamp" "lamp_status" (fun _ => true) "On"
         ⟨some 0, [("lamp_status", "on")]⟩ =
       .ok (.already (pyLower "On"), ⟨some 0, [("lamp_status", "on")]⟩, [])) ∧
    ["lamp:status:off"].length + ([] : List String).length ≤ 1 ∧
    ((∀ x, ToggleResp.sent "lamp:status:on" ≠ ToggleResp.already x) ∧
     ["lamp:status:on"] ≠ ([] : List String) ∧
     get_device_status [("lamp_status", "on")] "lamp_status" = pyLower "on") := by
  have h : get_device_status [("lamp_status", "on")] "lamp_status" =
      pyLower "On" := by decide
  refine ⟨⟨h, (toggle_noop_amended "lamp" "lamp_status" (fun _ => true) 0
      [("lamp_status", "on")] "On").1 h⟩, ?_, ?_⟩
  · exact (toggle_noop_amended "lamp" "lamp_status" (fun _ => true) 0
        [("lamp_status", "on")] "off").2.1
      (.sent "lamp:status:off") ⟨some 0, [("lamp_status", "off")]⟩ ["lamp:status:off"]
      (.already "off") ⟨some 0, [("lamp_status", "off")]⟩ [] rfl rfl
  · exact (toggle_noop_amended "lamp" "lamp_status" (fun _ => true) 0
        [("lamp_status", "ON")] "on").2.2 (by decide)
      (.sent "lamp:status:on") ⟨some 0, [("lamp_status", "on")]⟩ ["lamp:status:on"]
      rfl

/-- Claim C4, evaluated on the code: after channel 0 registers, channel 1
registers, and channel 0's receive then fails, the source's unconditional
`unity_ws = None` in the disconnect branch wipes channel 1's registration —
the registry ends empty instead of still holding channel 1. -/
theorem stale_disconnect_clears_newer :
    registryRun none [ChanEv.connect 0, ChanEv.connect 1, ChanEv.disconnect 0] =
      none ∧
    ¬ registryRun none [ChanEv.connect 0, ChanEv.connect 1, ChanEv.disconnect 0] =
      some 1 := by decide

/-- Claim C5: on a store with no key ever set, the tv volume query returns
50, the radio volume query returns 6, and every status query returns
`false`. -/
theorem defaults_on_empty_store :
    (get_tv_volume []).1 = 50 ∧ (get_radio_volume []).1 = 6 ∧
    (get_lamp_status []).1 = false ∧ (get_tv_status []).1 = false ∧
    (get_radio_status []).1 = false ∧ (get_kitchen_light_status []).1 = false := by
  decide

/-- Counterexample to claim C6 as stated: `"tv::on"` splits into exactly 3
parts of which one is empty; the source checks only the part count, so the
message is **not** discarded — it writes `"on"` under the key `"tv_"`. -/
theorem decode_empty_part_mutates :
    pySplit "tv::on" ':' = ["tv", "", "on"] ∧
    handle_message "tv::on" init_store ≠ init_store ∧
    store_lookup (handle_message "tv::on" init_store) "tv_" = some "on" ∧
    store_lookup init_store "tv_" = none := by decide

/-- Claim C6 as amended: the store is mutated only if splitting the inbound
message on `':'` yields exactly 3 parts — parts may be empty; any other part
count leaves every key of the store unchanged. -/
theorem decode_discard_non_three_parts (data : String) (st : Store)
    (h : (pySplit data ':').length ≠ 3) :
    handle_message data st = st := by
  unfold handle_message
  split
  · rename_i device prop value heq
    exact absurd (by rw [heq] ; rfl) h
  · rfl

/-- Witness for C6 as amended, at the spec's own examples: a 2-part and a
4-part message are both discarded. -/
theorem decode_discard_witness :
    ((pySplit "tv:volume" ':').length ≠ 3 ∧
     handle_message "tv:volume" init_store = init_store) ∧
    ((pySplit "tv:volume:10:extra" ':').length ≠ 3 ∧
     handle_message "tv:volume:10:extra" init_store = init_store) :=
  ⟨⟨by decide, decode_discard_non_three_parts "tv:volume" init_store (by decide)⟩,
   ⟨by decide, decode_discard_non_three_parts "tv:volume:10:extra" init_store
      (by decide)⟩⟩

/-- Counterexample to claim C7 as stated: toggling the tv with request
`"ON"` sends `"tv:status:ON"` — the source interpolates the raw
`command.state`, so the wire text is not all-lowercase. -/
theorem wire_uppercase_counterexample :
    toggle_tv (fun _ => true) "ON" ⟨some 0, init_store⟩ =
      .ok (.sent "tv:status:ON",
           ⟨some 0, [("lamp_status", "on"), ("tv_status", "on"),
                     ("radio_status", "off"), ("kitchenlight_status", "on"),
                     ("tv_volume", "50"), ("radio_volume", "6")]⟩,
           ["tv:status:ON"]) ∧
    "tv:status:ON" ≠ "tv:status:on" ∧
    pyLower "tv:status:ON" ≠ "tv:status:ON" :=
  ⟨rfl, by decide, by decide⟩

/-- Claim C7 as amended: a sending toggle puts `"{device}:status:{s}"` on
the wire where the device and property tokens are lowercase but `s` is the
caller's state string verbatim (the store, by contrast, receives the
lowercased form). -/
theorem wire_message_verbatim (dev key : String) (sendOk : Nat → Bool)
    (ch : Nat) (st : Store) (cmdState : String) (h1 : sendOk ch = true)
    (h2 : get_device_status st key ≠ pyLower cmdState) :
    toggle dev key sendOk cmdState ⟨some ch, st⟩ =
      .ok (.sent (dev ++ ":status:" ++ cmdState),
           ⟨some ch, set_device_status st key (pyLower cmdState)⟩,
           [dev ++ ":status:" ++ cmdState]) := by
  simp [toggle, h1, h2]

/-- Witness for C7 as amended: the tv toggle with request `"ON"`. -/
theorem wire_message_verbatim_witness :
    ((fun _ : Nat => true) 0 = true ∧
     get_device_status init_store "tv_status" ≠ pyLower "ON") ∧
    toggle "tv" "tv_status" (fun _ => true) "ON" ⟨some 0, init_store⟩ =
      .ok (.sent ("tv" ++ ":status:" ++ "ON"),
           ⟨some 0, set_device_status init_store "tv_status" (pyLower "ON")⟩,
           ["tv" ++ ":status:" ++ "ON"]) := by
  have h2 : get_device_status init_store "tv_status" ≠ pyLower "ON" := by decide
  exact ⟨⟨rfl, h2⟩,
    wire_message_verbatim "tv" "tv_status" (fun _ => true) 0 init_store "ON" rfl h2⟩

/-- Claim C8, evaluated on the code: the source wraps no try/except around
`send_text`, so a failing send escapes the endpoint as an exception
(`Except.error`) instead of an error result, and the state it leaves behind
still has the stale handle registered — the registry is not cleared. -/
theorem send_failure_uncaught :
    toggle_lamp (fun _ => false) "off" ⟨some 0, init_store⟩ =
      .error ⟨some 0, init_store⟩ ∧
    change_tv_volume (fun _ => false) "5.0" 5 ⟨some 0, init_store⟩ =
      .error ⟨some 0, init_store⟩ ∧
    (⟨some 0, init_store⟩ : Sys).unity_ws = some 0 :=
  ⟨rfl, rfl, rfl⟩

/-- Claim C9, evaluated on the code: nothing validates status values, so a
single inbound message `"lamp:status:banana"` — or a toggle request with
state `"banana"` — leaves `lamp_status = "banana"`, outside `{on, off}`, in
a reachable store. -/
theorem status_key_invalid_reachable :
    store_lookup (handle_message "lamp:status:banana" init_store)
      "lamp_status" = some "banana" ∧
    ¬ ("banana" = "on" ∨ "banana" = "off") ∧
    toggle_lamp (fun _ => true) "banana" ⟨some 0, init_store⟩ =
      .ok (.sent "lamp:status:banana",
           ⟨some 0, [("lamp_status", "banana"), ("tv_status", "off"),
                     ("radio_status", "off"), ("kitchenlight_status", "on"),
                     ("tv_volume", "50"), ("radio_volume", "6")]⟩,
           ["lamp:status:banana"]) ∧
    get_device_status [("lamp_status", "banana"), ("tv_status", "off"),
                       ("radio_status", "off"), ("kitchenlight_status", "on"),
                       ("tv_volume", "50"), ("radio_volume", "6")]
      "lamp_status" = "banana" :=
  ⟨by decide, by decide, rfl, by decide⟩

/-- Claim C10: every status and volume query returns the store exactly as it
found it; in particular an unparseable stored volume is reported as the
device default (50 tv, 6 radio) while the corrupt value stays in the store. -/
theorem queries_read_only (st : Store) :
    (get_lamp_status st).2 = st ∧ (get_tv_status st).2 = st ∧
    (get_radio_status st).2 = st ∧ (get_kitchen_light_status st).2 = st ∧
    (get_tv_volume st).2 = st ∧ (get_radio_volume st).2 = st ∧
    (pyInt (get_device_status st "tv_volume") = none →
      (get_tv_volume st).1 = 50 ∧ (get_tv_volume st).2 = st) ∧
    (pyInt (get_device_status st "radio_volume") = none →
      (get_radio_volume st).1 = 6 ∧ (get_radio_volume st).2 = st) := by
  refine ⟨rfl, rfl, rfl, rfl, rfl, rfl, ?_, ?_⟩
  · intro h
    exact ⟨by simp [get_tv_volume, h], rfl⟩
  · intro h
    exact ⟨by simp [get_radio_volume, h], rfl⟩

/-- Witness for C10 on a corrupt stored volume. -/
theorem queries_read_only_witness :
    pyInt (get_device_status [("tv_volume", "garbled")] "tv_volume") = none ∧
    (get_tv_volume [("tv_volume", "garbled")]).1 = 50 ∧
    (get_tv_volume [("tv_volume", "garbled")]).2 = [("tv_volume", "garbled")] := by
  have h : pyInt (get_device_status [("tv_volume", "garbled")] "tv_volume") =
      none := by decide
  have hq := (queries_read_only [("tv_volume", "garbled")]).2.2.2.2.2.2.1 h
  exact ⟨h, hq.1, hq.2⟩
